import Mathlib

/-!
Verification of the SMPP transport worker (`vumi/transports/smpp/transport.py`).

The worker's callback handlers are embedded as pure functions.  The shared
Redis key/value store is a function from keys to optional values; every
handler returns the updated worker state together with the list of observable
effects it performed (store writes/deletes/expiries, bus publishes,
pause/unpause of the connectors, log calls, scheduled callbacks), in the
order the source performs them.
-/

namespace Vumi.Smpp

/-- Session events of the bus message class (`vumi.message.TransportUserMessage`).
The transport only distinguishes the three named constants; absence of a
session event (Python `None`) is modelled with `Option`. -/
inductive SessionEvent where
  | NEW
  | RESUME
  | CLOSE
deriving DecidableEq

/-- An outbound bus message, as the transport reads it: `payload['message_id']`,
`message['to_addr']`, `message['from_addr']`, `message['content']`,
`message['transport_type']`, `message['session_event']` and
`message['transport_metadata'].get('session_info')`. -/
structure SmppMessage where
  message_id : String
  to_addr : String
  from_addr : String
  content : String
  transport_type : String
  session_event : Option SessionEvent
  session_info : Option String
deriving DecidableEq

/-- A value stored in Redis: either a plain string (sequence-number and
third-party-id correlation entries) or a serialized outbound message
(`message.to_json()`; serialization is modelled as the identity embedding,
so `Message.from_json` is the inverse projection). -/
inductive RedisValue where
  | str (s : String)
  | msg (m : SmppMessage)
deriving DecidableEq

/-- The Redis keyspace under the worker's prefix. -/
def RedisStore : Type := String → Option RedisValue

def empty_store : RedisStore := fun _ => none

def rget (st : RedisStore) (k : String) : Option RedisValue := st k

def rset (st : RedisStore) (k : String) (v : RedisValue) : RedisStore :=
  fun k' => if k' = k then some v else st k'

def rdel (st : RedisStore) (k : String) : RedisStore :=
  fun k' => if k' = k then none else st k'

/-- The inbound bus message built by `deliver_sm`.  `transport_metadata` starts
empty; on the ussd path the key `session_info` is inserted (possibly with value
`None`), which is modelled as `some kw.session_info`. -/
structure InboundMessage where
  message_id : String
  to_addr : String
  from_addr : String
  content : String
  transport_type : String
  session_event : Option SessionEvent
  transport_metadata_session_info : Option (Option String)
deriving DecidableEq

/-- Keyword arguments of the `delivery_report` callback: the parsed delivery
report dictionary fields the handler reads.  The `datetime.strptime` parse of
`done_date` is carried opaquely inside the published `transport_metadata`. -/
structure DeliveryReportKwargs where
  id : String
  stat : String
  done_date : String
deriving DecidableEq

/-- The effects a handler can perform, in source order.  Log messages keep the
level of the source call (`log.err`, `log.warning`, `log.msg`, `log.debug`). -/
inductive Effect where
  | redisSet (key : String) (value : RedisValue)
  | redisExpire (key : String) (seconds : Nat)
  | redisDelete (key : String)
  | publishAck (user_message_id : String) (sent_message_id : String)
  | publishNack (user_message_id : String) (reason : String)
  | publishFailure (message : SmppMessage) (failure_code : Option Nat) (reason : String)
  | publishDeliveryReport (user_message_id : String) (delivery_status : String)
      (report : DeliveryReportKwargs)
  | publishInbound (message : InboundMessage)
  | pauseConnectors
  | unpauseConnectors
  | callLater (delay : Rat) (message : SmppMessage)
  | logErr (text : String)
  | logWarning (text : String)
  | logMsg (text : String)
  | logDebug (text : String)
deriving DecidableEq

/-- The static configuration fields of `SmppTransportConfig` that the verified
handlers read.  `OPERATOR_PREFIXES` is the source's `OPERATOR_PREFIX` nested
dictionary (prefix to network-name); dictionaries are association lists.
The `throttle_delay` float is modelled as the rational its source literal
denotes. -/
structure SmppTransportConfig where
  third_party_id_expiry : Nat
  throttle_delay : Rat
  COUNTRY_CODE : String
  OPERATOR_PREFIXES : List (String × List (String × String))
  OPERATOR_NUMBER : List (String × String)
deriving DecidableEq

/-- Defaults declared in `SmppTransportConfig`: `third_party_id_expiry`
defaults to one week, `throttle_delay` to 0.1 seconds. -/
def default_config : SmppTransportConfig where
  third_party_id_expiry := 60 * 60 * 24 * 7
  throttle_delay := 1 / 10
  COUNTRY_CODE := ""
  OPERATOR_PREFIXES := []
  OPERATOR_NUMBER := []

/-- Mutable worker state: the Redis sub-namespace and the `throttled` flag
(`setup_transport` initialises `throttled := False`). -/
structure WorkerState where
  redis : RedisStore
  throttled : Bool

/-- Key for a stored outbound message body: `"message_json#<message_id>"`. -/
def r_message_key (message_id : String) : String := "message_json#" ++ message_id

/-- Key for a third-party-id correlation entry: `"3rd_party_id#<third_party_id>"`. -/
def r_third_party_id_key (third_party_id : String) : String :=
  "3rd_party_id#" ++ third_party_id

def r_set_message (st : RedisStore) (m : SmppMessage) : RedisStore × List Effect :=
  let k := r_message_key m.message_id
  (rset st k (.msg m), [.redisSet k (.msg m)])

def r_get_message (st : RedisStore) (message_id : String) : Option SmppMessage :=
  match rget st (r_message_key message_id) with
  | some (.msg m) => some m
  | _ => none

def r_delete_message (st : RedisStore) (message_id : String) : RedisStore × List Effect :=
  (rdel st (r_message_key message_id), [.redisDelete (r_message_key message_id)])

def r_get_id_for_sequence (st : RedisStore) (sequence_number : Nat) : Option String :=
  match rget st (toString sequence_number) with
  | some (.str s) => some s
  | _ => none

def r_delete_for_sequence (st : RedisStore) (sequence_number : Nat) :
    RedisStore × List Effect :=
  (rdel st (toString sequence_number), [.redisDelete (toString sequence_number)])

def r_set_id_for_sequence (st : RedisStore) (sequence_number : Nat) (id : String) :
    RedisStore × List Effect :=
  (rset st (toString sequence_number) (.str id),
   [.redisSet (toString sequence_number) (.str id)])

def r_get_id_for_third_party_id (st : RedisStore) (third_party_id : String) :
    Option String :=
  match rget st (r_third_party_id_key third_party_id) with
  | some (.str s) => some s
  | _ => none

def r_set_id_for_third_party_id (cfg : SmppTransportConfig) (st : RedisStore)
    (third_party_id : String) (id : String) : RedisStore × List Effect :=
  let rkey := r_third_party_id_key third_party_id
  (rset st rkey (.str id),
   [.redisSet rkey (.str id), .redisExpire rkey cfg.third_party_id_expiry])

/-- Source method `_start_throttling`. -/
def start_throttling (st : WorkerState) : WorkerState × List Effect :=
  if st.throttled then (st, [])
  else ({ st with throttled := true },
        [.logErr "Throttling outbound messages.", .pauseConnectors])

/-- Source method `_stop_throttling`. -/
def stop_throttling (st : WorkerState) : WorkerState × List Effect :=
  if st.throttled then
    ({ st with throttled := false },
     [.logErr "No longer throttling outbound messages.", .unpauseConnectors])
  else (st, [])

def submit_sm_success (st : WorkerState) (sent_sms_id : String)
    (transport_msg_id : String) : WorkerState × List Effect :=
  let d := r_delete_message st.redis sent_sms_id
  ({ st with redis := d.1 },
   d.2 ++
   [.logDebug ("Mapping transport_msg_id=" ++ transport_msg_id ++
       " to sent_sms_id=" ++ sent_sms_id),
    .logDebug ("PUBLISHING ACK: " ++ sent_sms_id ++ " -> " ++ transport_msg_id),
    .publishAck sent_sms_id transport_msg_id])

/-- Source method `submit_sm_failure(sent_sms_id, reason, failure_code=None)`.
Note the published `FailureMessage` is built with the literal `None` as its
`failure_code`, not with the `failure_code` argument. -/
def submit_sm_failure (st : WorkerState) (sent_sms_id : String) (reason : String)
    (failure_code : Option Nat) : WorkerState × List Effect :=
  match r_get_message st.redis sent_sms_id with
  | none => (st, [.logErr ("Could not retrieve failed message:" ++ sent_sms_id)])
  | some error_message =>
    let d := r_delete_message st.redis sent_sms_id
    ({ st with redis := d.1 },
     d.2 ++ [.publishNack sent_sms_id reason,
             .publishFailure error_message none reason])

def submit_sm_throttled (cfg : SmppTransportConfig) (st : WorkerState)
    (sent_sms_id : String) : WorkerState × List Effect :=
  match r_get_message st.redis sent_sms_id with
  | none => (st, [.logErr ("Could not retrieve throttled message:" ++ sent_sms_id)])
  | some message =>
    (st, [.callLater cfg.throttle_delay message])

/-- Keyword arguments of the `submit_sm_resp` callback.  `command_status` is a
string; the Python truthiness test `status or 'Unspecified'` treats the empty
string as falsy. -/
structure SubmitSmRespKwargs where
  message_id : String
  sequence_number : Nat
  command_status : String
deriving DecidableEq

def submit_sm_resp (cfg : SmppTransportConfig) (st : WorkerState)
    (kw : SubmitSmRespKwargs) : WorkerState × List Effect :=
  let transport_msg_id := kw.message_id
  match r_get_id_for_sequence st.redis kw.sequence_number with
  | none =>
    (st, [.logErr ("Sequence number lookup failed for:" ++
            toString kw.sequence_number)])
  | some sent_sms_id =>
    let a := r_set_id_for_third_party_id cfg st.redis transport_msg_id sent_sms_id
    let b := r_delete_for_sequence a.1 kw.sequence_number
    let st2 : WorkerState := { st with redis := b.1 }
    if kw.command_status = "ESME_ROK" then
      let c := submit_sm_success st2 sent_sms_id transport_msg_id
      let d := stop_throttling c.1
      (d.1, a.2 ++ b.2 ++ c.2 ++ d.2)
    else if kw.command_status = "ESME_RTHROTTLED" then
      let c := start_throttling st2
      let d := submit_sm_throttled cfg c.1 sent_sms_id
      (d.1, a.2 ++ b.2 ++ c.2 ++ d.2)
    else
      let reason := if kw.command_status = "" then "Unspecified" else kw.command_status
      let c := submit_sm_failure st2 sent_sms_id reason none
      let d := stop_throttling c.1
      (d.1, a.2 ++ b.2 ++ c.2 ++ d.2)

/-- Source method `delivery_status`. -/
def delivery_status (state : String) : String :=
  if state ∈ (["DELIVRD", "0"] : List String) then "delivered"
  else if state ∈ (["REJECTD"] : List String) then "failed"
  else "pending"

def delivery_report (st : WorkerState) (kw : DeliveryReportKwargs) :
    WorkerState × List Effect :=
  let status := delivery_status kw.stat
  match r_get_id_for_third_party_id st.redis kw.id with
  | none =>
    (st, [.logWarning
      "Failed to retrieve message id for delivery report. Delivery report discarded."])
  | some message_id =>
    (st, [.logMsg ("PUBLISHING DELIV REPORT: " ++ message_id ++ " " ++ status),
          .publishDeliveryReport message_id status kw])

/-- Keyword arguments of the `deliver_sm` callback.  `message_type` and
`session_info` are read with `kwargs.get` (absence allowed); `session_event`
is read with an unguarded `kwargs['session_event']` indexing on the ussd path,
so absence is modelled as `none`. -/
structure DeliverSmKwargs where
  message_id : String
  destination_addr : String
  source_addr : String
  short_message : String
  message_type : Option String
  session_event : Option String
  session_info : Option String
deriving DecidableEq

/-- The ussd session-event dictionary of `deliver_sm`; `none` models the
`KeyError` raised by the unguarded dictionary lookup. -/
def session_event_for (s : String) : Option SessionEvent :=
  if s = "new" then some .NEW
  else if s = "continue" then some .RESUME
  else if s = "close" then some .CLOSE
  else none

/-- Source method `deliver_sm`, building the inbound bus message.  `none`
models the handler raising `KeyError` before any publish is attempted. -/
def deliver_sm (kw : DeliverSmKwargs) : Option InboundMessage :=
  let message_type := kw.message_type.getD "sms"
  let base : InboundMessage :=
    { message_id := kw.message_id
      to_addr := kw.destination_addr
      from_addr := kw.source_addr
      content := kw.short_message
      transport_type := message_type
      session_event := none
      transport_metadata_session_info := none }
  if message_type = "ussd" then
    match kw.session_event with
    | none => none
    | some s =>
      match session_event_for s with
      | none => none
      | some ev =>
        some { base with
                session_event := some ev
                transport_metadata_session_info := some kw.session_info }
  else some base

/-- The effects of one `deliver_sm` call: log then publish on success,
nothing on a raised `KeyError`. -/
def deliver_sm_effects (kw : DeliverSmKwargs) : List Effect :=
  match deliver_sm kw with
  | none => []
  | some m => [.logMsg "PUBLISHING INBOUND", .publishInbound m]

/-- String prefix test on the character lists (equivalent to
`str.startswith` in the source). -/
def str_starts_with (s p : String) : Bool := p.data.isPrefixOf s.data

/-- Modelled from the spec: the operator resolver `get_operator_name` of
`vumi/utils.py`, which is not included under `src/`.  Per the spec, the
destination's country code then prefix identify a network through the nested
`OPERATOR_PREFIX` dictionary, defaulting to the network name `UNKNOWN`. -/
def get_operator_name (msisdn : String)
    (mapping : List (String × List (String × String))) : String :=
  match mapping.find? (fun e => str_starts_with msisdn e.1) with
  | none => "UNKNOWN"
  | some e =>
    match e.2.find? (fun e2 => str_starts_with msisdn e2.1) with
    | none => "UNKNOWN"
    | some e2 => e2.2

/-- Modelled from the spec: `get_operator_number` of `vumi/utils.py`, which is
not included under `src/`.  A leading zero is replaced by `COUNTRY_CODE`
before prefix lookup; the resolved network's configured source MSISDN is
returned, or nothing when the network has none configured. -/
def get_operator_number (msisdn : String) (COUNTRY_CODE : String)
    (mapping : List (String × List (String × String)))
    (numbers : List (String × String)) : Option String :=
  let normalized :=
    if str_starts_with msisdn "0" then
      COUNTRY_CODE ++ String.mk (msisdn.data.drop 1)
    else msisdn
  (numbers.find? (fun e => e.1 == get_operator_name normalized mapping)).map
    (fun e => e.2)

/-- The `submit_sm` call issued by `send_smpp`: the keyword arguments passed
to `esme_client.submit_sm` (utf-8 encoding of the text is modelled as the
identity on strings). -/
structure SubmitSmCall where
  short_message : String
  destination_addr : String
  source_addr : String
  message_type : String
  continue_session : Bool
  session_info : Option String
deriving DecidableEq

/-- Source method `send_smpp`: `source_addr = route or from_addr`, where the
Python `or` falls back when the route is `None` or empty. -/
def send_smpp (cfg : SmppTransportConfig) (message : SmppMessage) : SubmitSmCall :=
  let route := get_operator_number message.to_addr cfg.COUNTRY_CODE
      cfg.OPERATOR_PREFIXES cfg.OPERATOR_NUMBER
  { short_message := message.content
    destination_addr := message.to_addr
    source_addr :=
      match route with
      | some s => if s = "" then message.from_addr else s
      | none => message.from_addr
    message_type := message.transport_type
    continue_session := message.session_event != some .CLOSE
    session_info := message.session_info }

/-- Runs a list of `submit_sm_resp` callbacks in order, accumulating effects. -/
def run_responses (cfg : SmppTransportConfig) (st : WorkerState) :
    List SubmitSmRespKwargs → WorkerState × List Effect
  | [] => (st, [])
  | kw :: rest =>
    let a := submit_sm_resp cfg st kw
    let b := run_responses cfg a.1 rest
    (b.1, a.2 ++ b.2)

/-- Every response in the list resolves its sequence number at the moment it
is processed. -/
def all_resolve (cfg : SmppTransportConfig) (st : WorkerState) :
    List SubmitSmRespKwargs → Bool
  | [] => true
  | kw :: rest =>
    (r_get_id_for_sequence st.redis kw.sequence_number).isSome &&
      all_resolve cfg (submit_sm_resp cfg st kw).1 rest

def isPause : Effect → Bool
  | .pauseConnectors => true
  | _ => false

def isUnpause : Effect → Bool
  | .unpauseConnectors => true
  | _ => false

def isFailurePublish : Effect → Bool
  | .publishFailure _ _ _ => true
  | _ => false

def isNackPublish : Effect → Bool
  | .publishNack _ _ => true
  | _ => false

def isWarningLog : Effect → Bool
  | .logWarning _ => true
  | _ => false

def isErrLog : Effect → Bool
  | .logErr _ => true
  | _ => false

def isSchedule : Effect → Bool
  | .callLater _ _ => true
  | _ => false

def countPauses (es : List Effect) : Nat := es.countP isPause

def countUnpauses (es : List Effect) : Nat := es.countP isUnpause

/-! Concrete inputs used to instantiate the theorems below. -/

def msg1 : SmppMessage :=
  ⟨"m1", "27761234567", "27700000000", "hi", "sms", none, none⟩

/-- A store as it stands right after `handle_outbound_message` for `msg1` was
submitted with sequence number 1: the body is stored and the sequence is bound. -/
def store1 : RedisStore :=
  rset (rset empty_store (toString 1) (.str "m1")) (r_message_key "m1") (.msg msg1)

def st_unthrottled : WorkerState := ⟨store1, false⟩

def st_throttled : WorkerState := ⟨store1, true⟩

def kw_throttled : SubmitSmRespKwargs := ⟨"SM1", 1, "ESME_RTHROTTLED"⟩

def kw_ok : SubmitSmRespKwargs := ⟨"SM1", 1, "ESME_ROK"⟩

def kw_fail : SubmitSmRespKwargs := ⟨"SM1", 1, "ESME_RSUBMITFAIL"⟩

/-- A store holding a bound sequence whose message body is absent (expired). -/
def store_nobody : RedisStore := rset empty_store (toString 7) (.str "m3")

def st_nobody : WorkerState := ⟨store_nobody, false⟩

def kw_nobody_fail : SubmitSmRespKwargs := ⟨"SM3", 7, "ESME_RSUBMITFAIL"⟩

def kw_nobody_throttled : SubmitSmRespKwargs := ⟨"SM3", 7, "ESME_RTHROTTLED"⟩

def st_empty : WorkerState := ⟨empty_store, false⟩

def kw_miss : SubmitSmRespKwargs := ⟨"SMX", 9999, "ESME_ROK"⟩

def dkw_miss : DeliveryReportKwargs := ⟨"SMZ", "DELIVRD", "130101120500"⟩

def kw_ussd : DeliverSmKwargs :=
  ⟨"abc", "*120#", "27761234567", "hello", some "ussd", some "continue", some "xyz"⟩

def kw_ussd_bad : DeliverSmKwargs :=
  ⟨"abc", "*120#", "27761234567", "hello", some "ussd", some "resume", some "xyz"⟩

def kw_ussd_absent : DeliverSmKwargs :=
  ⟨"abc", "*120#", "27761234567", "hello", some "ussd", none, none⟩

/-- Configuration of the spec's operator-override scenario:
`OPERATOR_PREFIX` has network `N1` for prefix 27761 under country code 27, and
`OPERATOR_NUMBER` assigns source MSISDN 27999 to `N1`. -/
def cfg_operator : SmppTransportConfig :=
  ⟨604800, 1 / 10, "", [("27", [("27761", "N1")])], [("N1", "27999")]⟩

def msg_operator : SmppMessage :=
  ⟨"m6", "27761234567", "27700000000", "hi", "sms", none, none⟩

/-! Store lemmas and key-distinctness facts.  The three key families of the
correlation store never collide: message-body keys start with the letter `m`,
third-party-id keys with `3` followed by the letter `r`, and sequence keys
(`str(sequence_number)`) consist of decimal digits only. -/

theorem rget_rset_self (st : RedisStore) (k : String) (v : RedisValue) :
    rget (rset st k v) k = some v := by
  simp [rget, rset]

theorem rget_rset_other (st : RedisStore) (k k' : String) (v : RedisValue)
    (h : k ≠ k') : rget (rset st k' v) k = rget st k := by
  simp [rget, rset, h]

theorem rget_rdel_self (st : RedisStore) (k : String) :
    rget (rdel st k) k = none := by
  simp [rget, rdel]

theorem rget_rdel_other (st : RedisStore) (k k' : String)
    (h : k ≠ k') : rget (rdel st k') k = rget st k := by
  simp [rget, rdel, h]

def decimal_digits : List Char := ['0', '1', '2', '3', '4', '5', '6', '7', '8', '9']

theorem digitChar_mem_decimal : ∀ n : Nat, n < 10 →
    Nat.digitChar n ∈ decimal_digits := by decide

theorem toDigitsCore_mem_decimal (fuel : Nat) : ∀ (n : Nat) (ds : List Char),
    (∀ c ∈ ds, c ∈ decimal_digits) →
    ∀ c ∈ Nat.toDigitsCore 10 fuel n ds, c ∈ decimal_digits := by
  induction fuel with
  | zero =>
    intro n ds hds c hc
    exact hds c hc
  | succ fuel ih =>
    intro n ds hds c hc
    rw [Nat.toDigitsCore] at hc
    by_cases h0 : n / 10 = 0
    · rw [if_pos h0] at hc
      rcases List.mem_cons.mp hc with h | h
      · exact h ▸ digitChar_mem_decimal _ (Nat.mod_lt _ (by norm_num))
      · exact hds c h
    · rw [if_neg h0] at hc
      refine ih (n / 10) _ ?_ c hc
      intro c' hc'
      rcases List.mem_cons.mp hc' with h | h
      · exact h ▸ digitChar_mem_decimal _ (Nat.mod_lt _ (by norm_num))
      · exact hds c' h

theorem seq_key_chars_decimal (n : Nat) :
    ∀ c ∈ (toString n).data, c ∈ decimal_digits := by
  intro c hc
  have hrepr : (toString n).data = Nat.toDigitsCore 10 (n + 1) n [] := rfl
  rw [hrepr] at hc
  exact toDigitsCore_mem_decimal (n + 1) n [] (by intro c' hc'; cases hc') c hc

theorem seq_key_ne_message_key (n : Nat) (a : String) :
    toString n ≠ r_message_key a := by
  intro h
  have hm : 'm' ∈ (toString n).data := by
    rw [h, r_message_key]
    rw [String.data_append]
    exact List.mem_append_left _ (by decide)
  have := seq_key_chars_decimal n 'm' hm
  simp [decimal_digits] at this

theorem seq_key_ne_third_party_key (n : Nat) (b : String) :
    toString n ≠ r_third_party_id_key b := by
  intro h
  have hr : 'r' ∈ (toString n).data := by
    rw [h, r_third_party_id_key]
    rw [String.data_append]
    exact List.mem_append_left _ (by decide)
  have := seq_key_chars_decimal n 'r' hr
  simp [decimal_digits] at this

theorem message_key_ne_third_party_key (a b : String) :
    r_message_key a ≠ r_third_party_id_key b := by
  intro h
  have h2 := congrArg String.data h
  rw [r_message_key, r_third_party_id_key, String.data_append,
      String.data_append] at h2
  have e1 : ("message_json#" : String).data = 'm' :: "essage_json#".data := by decide
  have e2 : ("3rd_party_id#" : String).data = '3' :: "rd_party_id#".data := by decide
  rw [e1, e2, List.cons_append, List.cons_append] at h2
  exact absurd (List.head_eq_of_cons_eq h2) (by decide)

/-- Binding the third-party id and then deleting the sequence entry leaves the
third-party entry readable. -/
theorem rget_third_after (st : RedisStore) (tp sent : String) (n : Nat) :
    rget (rdel (rset st (r_third_party_id_key tp) (.str sent)) (toString n))
      (r_third_party_id_key tp) = some (.str sent) := by
  rw [rget_rdel_other _ _ _ (Ne.symm (seq_key_ne_third_party_key n tp)),
      rget_rset_self]

/-- Also deleting a message body afterwards leaves the third-party entry readable. -/
theorem rget_third_after_msgdel (st : RedisStore) (tp sent mid : String) (n : Nat) :
    rget (rdel (rdel (rset st (r_third_party_id_key tp) (.str sent)) (toString n))
        (r_message_key mid)) (r_third_party_id_key tp) = some (.str sent) := by
  rw [rget_rdel_other _ _ _ (Ne.symm (message_key_ne_third_party_key mid tp)),
      rget_third_after]

/-- Binding the third-party id and deleting the sequence entry does not touch
any stored message body. -/
theorem r_get_message_after (st : RedisStore) (tp mid : String) (v : RedisValue)
    (n : Nat) :
    r_get_message (rdel (rset st (r_third_party_id_key tp) v) (toString n)) mid =
      r_get_message st mid := by
  unfold r_get_message
  rw [rget_rdel_other _ _ _ (Ne.symm (seq_key_ne_message_key n mid)),
      rget_rset_other _ _ _ _ (message_key_ne_third_party_key mid tp)]

theorem rget_message_after (st : RedisStore) (tp mid : String) (v : RedisValue)
    (n : Nat) :
    rget (rdel (rset st (r_third_party_id_key tp) v) (toString n))
      (r_message_key mid) = rget st (r_message_key mid) := by
  rw [rget_rdel_other _ _ _ (Ne.symm (seq_key_ne_message_key n mid)),
      rget_rset_other _ _ _ _ (message_key_ne_third_party_key mid tp)]

theorem r_get_message_eq_some_iff (st : RedisStore) (mid : String)
    (m : SmppMessage) :
    r_get_message st mid = some m ↔ rget st (r_message_key mid) = some (.msg m) := by
  rcases h : rget st (r_message_key mid) with _ | v
  · simp [r_get_message, h]
  · cases v <;> simp [r_get_message, h]

/-! Behaviour of the sub-handlers with respect to pause/unpause effects. -/

theorem submit_sm_throttled_fst (cfg : SmppTransportConfig)
    (st : WorkerState) (sent : String) :
    (submit_sm_throttled cfg st sent).1 = st := by
  unfold submit_sm_throttled
  cases r_get_message st.redis sent <;> simp

theorem submit_sm_throttled_countP_pause (cfg : SmppTransportConfig)
    (st : WorkerState) (sent : String) :
    (submit_sm_throttled cfg st sent).2.countP isPause = 0 := by
  unfold submit_sm_throttled
  cases r_get_message st.redis sent <;> simp [isPause]

theorem submit_sm_throttled_countP_unpause (cfg : SmppTransportConfig)
    (st : WorkerState) (sent : String) :
    (submit_sm_throttled cfg st sent).2.countP isUnpause = 0 := by
  unfold submit_sm_throttled
  cases r_get_message st.redis sent <;> simp [isUnpause]

theorem submit_sm_success_fst_throttled (st : WorkerState) (sent tp : String) :
    (submit_sm_success st sent tp).1.throttled = st.throttled := by
  simp [submit_sm_success, r_delete_message]

theorem submit_sm_success_countP_pause (st : WorkerState) (sent tp : String) :
    (submit_sm_success st sent tp).2.countP isPause = 0 := by
  simp [submit_sm_success, r_delete_message, isPause]

theorem submit_sm_success_countP_unpause (st : WorkerState) (sent tp : String) :
    (submit_sm_success st sent tp).2.countP isUnpause = 0 := by
  simp [submit_sm_success, r_delete_message, isUnpause]

theorem submit_sm_failure_fst_throttled (st : WorkerState) (sent reason : String)
    (fc : Option Nat) :
    (submit_sm_failure st sent reason fc).1.throttled = st.throttled := by
  unfold submit_sm_failure
  cases r_get_message st.redis sent <;> simp [r_delete_message]

theorem submit_sm_failure_countP_pause (st : WorkerState) (sent reason : String)
    (fc : Option Nat) :
    (submit_sm_failure st sent reason fc).2.countP isPause = 0 := by
  unfold submit_sm_failure
  cases r_get_message st.redis sent <;> simp [r_delete_message, isPause]

theorem submit_sm_failure_countP_unpause (st : WorkerState) (sent reason : String)
    (fc : Option Nat) :
    (submit_sm_failure st sent reason fc).2.countP isUnpause = 0 := by
  unfold submit_sm_failure
  cases r_get_message st.redis sent <;> simp [r_delete_message, isUnpause]

theorem start_throttling_of_throttled (st : WorkerState) (ht : st.throttled = true) :
    start_throttling st = (st, []) := by
  simp [start_throttling, ht]

theorem stop_throttling_of_unthrottled (st : WorkerState)
    (ht : st.throttled = false) : stop_throttling st = (st, []) := by
  simp [stop_throttling, ht]

/-- One throttled response while already throttled: no pause, still throttled. -/
theorem step_throttled_of_throttled (cfg : SmppTransportConfig) (st : WorkerState)
    (kw : SubmitSmRespKwargs) (ht : st.throttled = true)
    (hs : kw.command_status = "ESME_RTHROTTLED") :
    (submit_sm_resp cfg st kw).1.throttled = true ∧
    countPauses (submit_sm_resp cfg st kw).2 = 0 ∧
    countUnpauses (submit_sm_resp cfg st kw).2 = 0 := by
  cases hres : r_get_id_for_sequence st.redis kw.sequence_number with
  | none =>
    simp [submit_sm_resp, hres, countPauses, countUnpauses, isPause, isUnpause, ht]
  | some sent =>
    simp [submit_sm_resp, hres, hs, r_set_id_for_third_party_id,
      r_delete_for_sequence, ht, start_throttling,
      submit_sm_throttled_fst, submit_sm_throttled_countP_pause,
      submit_sm_throttled_countP_unpause,
      countPauses, countUnpauses, isPause, isUnpause, List.countP_append]

/-- The first throttled response in an unthrottled phase: exactly one pause,
and the worker is marked throttled. -/
theorem step_throttled_of_unthrottled (cfg : SmppTransportConfig)
    (st : WorkerState) (kw : SubmitSmRespKwargs) (sent : String)
    (ht : st.throttled = false)
    (hres : r_get_id_for_sequence st.redis kw.sequence_number = some sent)
    (hs : kw.command_status = "ESME_RTHROTTLED") :
    (submit_sm_resp cfg st kw).1.throttled = true ∧
    countPauses (submit_sm_resp cfg st kw).2 = 1 ∧
    countUnpauses (submit_sm_resp cfg st kw).2 = 0 := by
  simp [submit_sm_resp, hres, hs, r_set_id_for_third_party_id,
    r_delete_for_sequence, ht, start_throttling,
    submit_sm_throttled_fst, submit_sm_throttled_countP_pause,
    submit_sm_throttled_countP_unpause,
    countPauses, countUnpauses, isPause, isUnpause, List.countP_append]

/-- A resolvable non-throttled outcome while throttled: exactly one unpause,
and the throttled flag is cleared. -/
theorem step_unthrottle_of_throttled (cfg : SmppTransportConfig)
    (st : WorkerState) (kw : SubmitSmRespKwargs) (sent : String)
    (ht : st.throttled = true)
    (hres : r_get_id_for_sequence st.redis kw.sequence_number = some sent)
    (hs : kw.command_status ≠ "ESME_RTHROTTLED") :
    (submit_sm_resp cfg st kw).1.throttled = false ∧
    countUnpauses (submit_sm_resp cfg st kw).2 = 1 ∧
    countPauses (submit_sm_resp cfg st kw).2 = 0 := by
  by_cases hok : kw.command_status = "ESME_ROK"
  · simp [submit_sm_resp, hres, hok, r_set_id_for_third_party_id,
      r_delete_for_sequence, ht, stop_throttling,
      submit_sm_success_fst_throttled, submit_sm_success_countP_pause,
      submit_sm_success_countP_unpause,
      countPauses, countUnpauses, isPause, isUnpause, List.countP_append]
  · simp [submit_sm_resp, hres, hok, hs, r_set_id_for_third_party_id,
      r_delete_for_sequence, ht, stop_throttling,
      submit_sm_failure_fst_throttled, submit_sm_failure_countP_pause,
      submit_sm_failure_countP_unpause,
      countPauses, countUnpauses, isPause, isUnpause, List.countP_append]

/-- A non-throttled outcome while not throttled: no unpause is emitted and the
worker stays unthrottled (whether or not the sequence number resolves). -/
theorem step_unthrottled_stays (cfg : SmppTransportConfig)
    (st : WorkerState) (kw : SubmitSmRespKwargs) (ht : st.throttled = false)
    (hs : kw.command_status ≠ "ESME_RTHROTTLED") :
    (submit_sm_resp cfg st kw).1.throttled = false ∧
    countUnpauses (submit_sm_resp cfg st kw).2 = 0 ∧
    countPauses (submit_sm_resp cfg st kw).2 = 0 := by
  cases hres : r_get_id_for_sequence st.redis kw.sequence_number with
  | none =>
    simp [submit_sm_resp, hres, countPauses, countUnpauses, isPause, isUnpause, ht]
  | some sent =>
    by_cases hok : kw.command_status = "ESME_ROK"
    · simp [submit_sm_resp, hres, hok, r_set_id_for_third_party_id,
        r_delete_for_sequence, ht, stop_throttling,
        submit_sm_success_fst_throttled, submit_sm_success_countP_pause,
        submit_sm_success_countP_unpause,
        countPauses, countUnpauses, isPause, isUnpause, List.countP_append]
    · simp [submit_sm_resp, hres, hok, hs, r_set_id_for_third_party_id,
        r_delete_for_sequence, ht, stop_throttling,
        submit_sm_failure_fst_throttled, submit_sm_failure_countP_pause,
        submit_sm_failure_countP_unpause,
        countPauses, countUnpauses, isPause, isUnpause, List.countP_append]

/-- A run of throttled responses processed while already throttled pauses
nothing and leaves the worker throttled. -/
theorem run_throttled_of_throttled (cfg : SmppTransportConfig) :
    ∀ (l : List SubmitSmRespKwargs) (st : WorkerState),
    st.throttled = true → (∀ k ∈ l, k.command_status = "ESME_RTHROTTLED") →
    (run_responses cfg st l).1.throttled = true ∧
    countPauses (run_responses cfg st l).2 = 0 := by
  intro l
  induction l with
  | nil => intro st ht _; simpa [run_responses, countPauses] using ht
  | cons kw rest ih =>
    intro st ht hall
    have hstep := step_throttled_of_throttled cfg st kw ht
      (hall kw (List.mem_cons_self kw rest))
    have hrest := ih (submit_sm_resp cfg st kw).1 hstep.1
      (fun k hk => hall k (List.mem_cons_of_mem kw hk))
    simp [run_responses, countPauses, List.countP_append] at hrest ⊢
    refine ⟨hrest.1, ?_, hrest.2⟩
    simpa [countPauses] using hstep.2.1

/-! The claims. -/

/-- C5: `delivery_status` is total and maps stat DELIVRD and stat 0 to
delivered, stat REJECTD to failed, and every other stat string to pending. -/
theorem c5_delivery_status_mapping :
    delivery_status "DELIVRD" = "delivered" ∧
    delivery_status "0" = "delivered" ∧
    delivery_status "REJECTD" = "failed" ∧
    ∀ s : String, s ≠ "DELIVRD" → s ≠ "0" → s ≠ "REJECTD" →
      delivery_status s = "pending" := by
  refine ⟨by decide, by decide, by decide, ?_⟩
  intro s h1 h2 h3
  simp [delivery_status, h1, h2, h3]

theorem c5_witness : "EXPIRED" ≠ "DELIVRD" ∧ delivery_status "EXPIRED" = "pending" :=
  ⟨by decide, c5_delivery_status_mapping.2.2.2 "EXPIRED" (by decide) (by decide)
    (by decide)⟩

/-- C6: a correlation miss — a submit_sm_resp whose sequence number has no
stored user_message_id, or a delivery report whose third-party id has no
stored user_message_id — is logged and discarded: the state is unchanged and
the only effect is the log call, so nothing is published, no key is written
or deleted, and nothing touches the session. -/
theorem c6_correlation_miss (cfg : SmppTransportConfig) (st : WorkerState)
    (kw : SubmitSmRespKwargs) (dkw : DeliveryReportKwargs)
    (h1 : r_get_id_for_sequence st.redis kw.sequence_number = none)
    (h2 : r_get_id_for_third_party_id st.redis dkw.id = none) :
    submit_sm_resp cfg st kw =
      (st, [.logErr ("Sequence number lookup failed for:" ++
              toString kw.sequence_number)]) ∧
    delivery_report st dkw =
      (st, [.logWarning
        "Failed to retrieve message id for delivery report. Delivery report discarded."]) := by
  constructor
  · simp [submit_sm_resp, h1]
  · simp [delivery_report, h2]

theorem c6_witness :
    submit_sm_resp default_config st_empty kw_miss =
      (st_empty, [.logErr ("Sequence number lookup failed for:" ++
          toString kw_miss.sequence_number)]) ∧
    delivery_report st_empty dkw_miss =
      (st_empty, [.logWarning
        "Failed to retrieve message id for delivery report. Delivery report discarded."]) :=
  c6_correlation_miss default_config st_empty kw_miss dkw_miss rfl rfl

/-- C7: `deliver_sm` publishes an inbound message with to_addr from
destination_addr, from_addr from source_addr, content from short_message and
transport_type from message_type (default sms); on the ussd path the session
events new, continue and close map to NEW, RESUME and CLOSE, and
session_info is copied into the transport metadata. -/
theorem c7_deliver_sm_mapping (kw : DeliverSmKwargs) :
    (∀ m, deliver_sm kw = some m →
      m.to_addr = kw.destination_addr ∧ m.from_addr = kw.source_addr ∧
      m.content = kw.short_message ∧
      m.transport_type = kw.message_type.getD "sms") ∧
    (kw.message_type.getD "sms" = "ussd" →
      ∀ s ev, kw.session_event = some s → session_event_for s = some ev →
        ∃ m, deliver_sm kw = some m ∧ m.session_event = some ev ∧
          m.transport_metadata_session_info = some kw.session_info) ∧
    session_event_for "new" = some .NEW ∧
    session_event_for "continue" = some .RESUME ∧
    session_event_for "close" = some .CLOSE := by
  refine ⟨?_, ?_, by decide, by decide, by decide⟩
  · intro m hm
    by_cases hu : kw.message_type.getD "sms" = "ussd"
    · rcases hse : kw.session_event with _ | s
      · simp [deliver_sm, hu, hse] at hm
      · rcases hev : session_event_for s with _ | ev
        · simp [deliver_sm, hu, hse, hev] at hm
        · simp [deliver_sm, hu, hse, hev] at hm
          simp [← hm, hu]
    · simp [deliver_sm, hu] at hm
      simp [← hm]
  · intro hu s ev hs hev
    refine ⟨{ message_id := kw.message_id, to_addr := kw.destination_addr,
              from_addr := kw.source_addr, content := kw.short_message,
              transport_type := kw.message_type.getD "sms",
              session_event := some ev,
              transport_metadata_session_info := some kw.session_info },
            ?_, rfl, rfl⟩
    simp [deliver_sm, hu, hs, hev]

theorem c7_witness :
    ∃ m, deliver_sm kw_ussd = some m ∧
      m.session_event = some SessionEvent.RESUME ∧
      m.transport_metadata_session_info = some (some "xyz") := by
  have h := (c7_deliver_sm_mapping kw_ussd).2.1 rfl "continue"
    SessionEvent.RESUME rfl rfl
  simpa using h

/-- C8: `send_smpp` uses the operator resolver on to_addr; a configured
source MSISDN overrides the source address and otherwise the message's
from_addr is used verbatim.  (`get_operator_number` is modelled from the
spec; see its doc comment.) -/
theorem c8_operator_override (cfg : SmppTransportConfig) (m : SmppMessage) :
    (∀ r, get_operator_number m.to_addr cfg.COUNTRY_CODE cfg.OPERATOR_PREFIXES
        cfg.OPERATOR_NUMBER = some r → r ≠ "" →
      (send_smpp cfg m).source_addr = r) ∧
    (get_operator_number m.to_addr cfg.COUNTRY_CODE cfg.OPERATOR_PREFIXES
        cfg.OPERATOR_NUMBER = none →
      (send_smpp cfg m).source_addr = m.from_addr) := by
  constructor
  · intro r hr hne
    simp [send_smpp, hr, hne]
  · intro hr
    simp [send_smpp, hr]

theorem c8_witness :
    get_operator_number "27761234567" "" cfg_operator.OPERATOR_PREFIXES
      cfg_operator.OPERATOR_NUMBER = some "27999" ∧
    (send_smpp cfg_operator msg_operator).source_addr = "27999" :=
  ⟨by decide, (c8_operator_override cfg_operator msg_operator).1 "27999"
    (by decide) (by decide)⟩

/-- C9: on the ussd inbound path, a missing `session_event` key or a value
outside new/continue/close makes `deliver_sm` fail on the unguarded
dictionary lookup before any bus publish is attempted. -/
theorem c9_ussd_session_event_precondition (kw : DeliverSmKwargs)
    (hu : kw.message_type.getD "sms" = "ussd") :
    (kw.session_event = none →
      deliver_sm kw = none ∧ deliver_sm_effects kw = []) ∧
    (∀ s, kw.session_event = some s → s ≠ "new" → s ≠ "continue" → s ≠ "close" →
      deliver_sm kw = none ∧ deliver_sm_effects kw = []) := by
  constructor
  · intro h
    simp [deliver_sm, deliver_sm_effects, hu, h]
  · intro s hs h1 h2 h3
    simp [deliver_sm, deliver_sm_effects, session_event_for, hu, hs, h1, h2, h3]

theorem c9_witness :
    deliver_sm kw_ussd_bad = none ∧ deliver_sm kw_ussd_absent = none :=
  ⟨((c9_ussd_session_event_precondition kw_ussd_bad rfl).2 "resume" rfl
      (by decide) (by decide) (by decide)).1,
   ((c9_ussd_session_event_precondition kw_ussd_absent rfl).1 rfl).1⟩

/-- C10: every failure record published by `submit_sm_failure` carries
failure_code None, regardless of the failure_code argument passed in: the
argument is never forwarded to the published FailureMessage. -/
theorem c10_failure_code_never_forwarded (st : WorkerState)
    (sent reason : String) (fc : Option Nat) (m : SmppMessage)
    (c : Option Nat) (r : String)
    (h : Effect.publishFailure m c r ∈ (submit_sm_failure st sent reason fc).2) :
    c = none := by
  unfold submit_sm_failure at h
  rcases hm : r_get_message st.redis sent with _ | em <;> rw [hm] at h <;>
    simp [r_delete_message] at h
  exact h.2.1

theorem c10_witness :
    Effect.publishFailure msg1 none "boom"
      ∈ (submit_sm_failure st_unthrottled "m1" "boom" (some 42)).2 ∧
    (none : Option Nat) = none :=
  ⟨by decide, c10_failure_code_never_forwarded st_unthrottled "m1" "boom"
    (some 42) msg1 none "boom" (by decide)⟩

/-- C1 is refuted at a concrete input: a submit_sm_resp whose sequence number
resolves but whose command_status is ESME_RTHROTTLED still creates the
third-party-id entry, with the TTL effect emitted — the binding is not
restricted to ESME_ROK. -/
theorem c1_counterexample :
    kw_throttled.command_status = "ESME_RTHROTTLED" ∧
    rget (submit_sm_resp default_config st_unthrottled kw_throttled).1.redis
      (r_third_party_id_key "SM1") = some (.str "m1") ∧
    Effect.redisExpire (r_third_party_id_key "SM1")
      default_config.third_party_id_expiry
      ∈ (submit_sm_resp default_config st_unthrottled kw_throttled).2 := by
  refine ⟨rfl, by decide, by decide⟩

/-- C1 (amended): for every submit_sm_resp whose sequence number resolves to a
user_message_id, the third-party-id mapping is stored with TTL
third_party_id_expiry regardless of command_status — the binding and expiry
happen before the status branch. -/
theorem c1_amended_third_party_binding (cfg : SmppTransportConfig)
    (st : WorkerState) (kw : SubmitSmRespKwargs) (sent : String)
    (hres : r_get_id_for_sequence st.redis kw.sequence_number = some sent) :
    rget (submit_sm_resp cfg st kw).1.redis (r_third_party_id_key kw.message_id)
      = some (.str sent) ∧
    Effect.redisSet (r_third_party_id_key kw.message_id) (.str sent)
      ∈ (submit_sm_resp cfg st kw).2 ∧
    Effect.redisExpire (r_third_party_id_key kw.message_id)
      cfg.third_party_id_expiry ∈ (submit_sm_resp cfg st kw).2 := by
  rcases hm : r_get_message st.redis sent with _ | em <;>
  cases hst : st.throttled <;>
  by_cases hok : kw.command_status = "ESME_ROK" <;>
  by_cases hth : kw.command_status = "ESME_RTHROTTLED" <;>
  simp [submit_sm_resp, hres, hok, hth, hst, hm, r_set_id_for_third_party_id,
    r_delete_for_sequence, submit_sm_success, submit_sm_throttled,
    submit_sm_failure, r_delete_message, stop_throttling, start_throttling,
    r_get_message_after, rget_third_after, rget_third_after_msgdel]

theorem c1_amended_witness :
    rget (submit_sm_resp default_config st_unthrottled kw_ok).1.redis
      (r_third_party_id_key "SM1") = some (.str "m1") :=
  (c1_amended_third_party_binding default_config st_unthrottled kw_ok "m1"
    (by decide)).1

/-- C3 is refuted in its logging clause at a concrete input: when the status
is a terminal failure and the stored body is missing, the failure publish is
indeed skipped but the log call is `log.err`, not a warning. -/
theorem c3_counterexample :
    r_get_id_for_sequence st_nobody.redis kw_nobody_fail.sequence_number
      = some "m3" ∧
    r_get_message st_nobody.redis "m3" = none ∧
    kw_nobody_fail.command_status = "ESME_RSUBMITFAIL" ∧
    (submit_sm_resp default_config st_nobody kw_nobody_fail).2.countP
      isWarningLog = 0 ∧
    (submit_sm_resp default_config st_nobody kw_nobody_fail).2.countP
      isFailurePublish = 0 ∧
    (submit_sm_resp default_config st_nobody kw_nobody_fail).2.countP
      isErrLog = 1 := by
  refine ⟨by decide, by decide, rfl, by decide, by decide, by decide⟩

/-- C3 (amended): for every submit_sm_resp with a resolvable sequence number
and a command_status that is neither ESME_ROK nor ESME_RTHROTTLED, the worker
retrieves and deletes the stored message body, publishes a nack for that
user_message_id, and emits exactly one failure record carrying the original
payload and the reason; if the stored body is missing, the failure publish is
skipped and an error is logged instead. -/
theorem c3_amended_failure_handling (cfg : SmppTransportConfig)
    (st : WorkerState) (kw : SubmitSmRespKwargs) (sent : String)
    (hres : r_get_id_for_sequence st.redis kw.sequence_number = some sent)
    (hok : kw.command_status ≠ "ESME_ROK")
    (hth : kw.command_status ≠ "ESME_RTHROTTLED") :
    (∀ m, r_get_message st.redis sent = some m →
      Effect.redisDelete (r_message_key sent) ∈ (submit_sm_resp cfg st kw).2 ∧
      rget (submit_sm_resp cfg st kw).1.redis (r_message_key sent) = none ∧
      Effect.publishNack sent
          (if kw.command_status = "" then "Unspecified" else kw.command_status)
        ∈ (submit_sm_resp cfg st kw).2 ∧
      (submit_sm_resp cfg st kw).2.countP isFailurePublish = 1 ∧
      Effect.publishFailure m none
          (if kw.command_status = "" then "Unspecified" else kw.command_status)
        ∈ (submit_sm_resp cfg st kw).2) ∧
    (r_get_message st.redis sent = none →
      (submit_sm_resp cfg st kw).2.countP isFailurePublish = 0 ∧
      (submit_sm_resp cfg st kw).2.countP isNackPublish = 0 ∧
      Effect.logErr ("Could not retrieve failed message:" ++ sent)
        ∈ (submit_sm_resp cfg st kw).2) := by
  constructor
  · intro m hm
    cases hst : st.throttled <;>
    simp [submit_sm_resp, hres, hok, hth, hst, hm, r_set_id_for_third_party_id,
      r_delete_for_sequence, submit_sm_failure, r_delete_message,
      stop_throttling, r_get_message_after, rget_rdel_self,
      isFailurePublish, List.countP_append]
  · intro hm
    cases hst : st.throttled <;>
    simp [submit_sm_resp, hres, hok, hth, hst, hm, r_set_id_for_third_party_id,
      r_delete_for_sequence, submit_sm_failure, r_delete_message,
      stop_throttling, r_get_message_after,
      isFailurePublish, isNackPublish, List.countP_append]

theorem c3_amended_witness :
    (submit_sm_resp default_config st_unthrottled kw_fail).2.countP
      isFailurePublish = 1 ∧
    Effect.publishNack "m1" "ESME_RSUBMITFAIL"
      ∈ (submit_sm_resp default_config st_unthrottled kw_fail).2 := by
  have h := (c3_amended_failure_handling default_config st_unthrottled kw_fail
    "m1" (by decide) (by decide) (by decide)).1 msg1 (by decide)
  exact ⟨h.2.2.2.1, by simpa using h.2.2.1⟩

/-- C4: on ESME_RTHROTTLED with a resolvable sequence number and a stored
body, the worker enters throttling and schedules a re-submit of the same
stored message after throttle_delay seconds (default 0.1, i.e. 1/10), and the
stored message body is not deleted by this path; with the body missing, the
event is logged and the message is dropped (nothing is scheduled). -/
theorem c4_throttled_resubmit (cfg : SmppTransportConfig) (st : WorkerState)
    (kw : SubmitSmRespKwargs) (sent : String)
    (hres : r_get_id_for_sequence st.redis kw.sequence_number = some sent)
    (hth : kw.command_status = "ESME_RTHROTTLED") :
    (∀ m, r_get_message st.redis sent = some m →
      Effect.callLater cfg.throttle_delay m ∈ (submit_sm_resp cfg st kw).2 ∧
      (submit_sm_resp cfg st kw).1.throttled = true ∧
      rget (submit_sm_resp cfg st kw).1.redis (r_message_key sent)
        = some (.msg m) ∧
      Effect.redisDelete (r_message_key sent) ∉ (submit_sm_resp cfg st kw).2) ∧
    (r_get_message st.redis sent = none →
      Effect.logErr ("Could not retrieve throttled message:" ++ sent)
        ∈ (submit_sm_resp cfg st kw).2 ∧
      (submit_sm_resp cfg st kw).2.countP isSchedule = 0) ∧
    default_config.throttle_delay = 1 / 10 := by
  have hne : r_message_key sent ≠ toString kw.sequence_number :=
    Ne.symm (seq_key_ne_message_key kw.sequence_number sent)
  refine ⟨?_, ?_, rfl⟩
  · intro m hm
    have hmr := (r_get_message_eq_some_iff st.redis sent m).mp hm
    cases hst : st.throttled <;>
    simp [submit_sm_resp, hres, hth, hst, hm, hmr, r_set_id_for_third_party_id,
      r_delete_for_sequence, start_throttling, submit_sm_throttled,
      r_get_message_after, rget_message_after, hne]
  · intro hm
    cases hst : st.throttled <;>
    simp [submit_sm_resp, hres, hth, hst, hm, r_set_id_for_third_party_id,
      r_delete_for_sequence, start_throttling, submit_sm_throttled,
      r_get_message_after, isSchedule, List.countP_append]

theorem c4_witness :
    Effect.callLater default_config.throttle_delay msg1
      ∈ (submit_sm_resp default_config st_unthrottled kw_throttled).2 ∧
    rget (submit_sm_resp default_config st_unthrottled kw_throttled).1.redis
      (r_message_key "m1") = some (.msg msg1) := by
  have h := (c4_throttled_resubmit default_config st_unthrottled kw_throttled
    "m1" (by decide) rfl).1 msg1 (by decide)
  exact ⟨h.1, h.2.2.1⟩

/-- C2: throttling is edge-triggered.  A nonempty run of resolvable
ESME_RTHROTTLED responses starting unthrottled pauses the connectors exactly
once and sets throttled; the first resolvable non-throttled outcome while
throttled unpauses exactly once and clears throttled; a non-throttled outcome
while not throttled unpauses nothing; and a second `_start_throttling` or
`_stop_throttling` in the same phase is a no-op. -/
theorem c2_throttling_edge_triggered (cfg : SmppTransportConfig)
    (st : WorkerState) (l : List SubmitSmRespKwargs) (kw : SubmitSmRespKwargs) :
    (st.throttled = false → l ≠ [] → all_resolve cfg st l = true →
      (∀ k ∈ l, k.command_status = "ESME_RTHROTTLED") →
      countPauses (run_responses cfg st l).2 = 1 ∧
      (run_responses cfg st l).1.throttled = true) ∧
    (st.throttled = true →
      r_get_id_for_sequence st.redis kw.sequence_number ≠ none →
      kw.command_status ≠ "ESME_RTHROTTLED" →
      countUnpauses (submit_sm_resp cfg st kw).2 = 1 ∧
      (submit_sm_resp cfg st kw).1.throttled = false) ∧
    (st.throttled = false → kw.command_status ≠ "ESME_RTHROTTLED" →
      countUnpauses (submit_sm_resp cfg st kw).2 = 0) ∧
    (st.throttled = true → start_throttling st = (st, [])) ∧
    (st.throttled = false → stop_throttling st = (st, [])) := by
  refine ⟨?_, ?_, ?_, fun ht => start_throttling_of_throttled st ht,
    fun ht => stop_throttling_of_unthrottled st ht⟩
  · intro ht hne hres hall
    cases l with
    | nil => exact absurd rfl hne
    | cons kw0 rest =>
      rw [all_resolve, Bool.and_eq_true] at hres
      obtain ⟨hres0, hresrest⟩ := hres
      obtain ⟨sent, hsent⟩ := Option.isSome_iff_exists.mp hres0
      have hstep := step_throttled_of_unthrottled cfg st kw0 sent ht hsent
        (hall kw0 (List.mem_cons_self kw0 rest))
      have hrest := run_throttled_of_throttled cfg rest
        (submit_sm_resp cfg st kw0).1 hstep.1
        (fun k hk => hall k (List.mem_cons_of_mem kw0 hk))
      constructor
      · have h1 := hstep.2.1
        have h2 := hrest.2
        simp only [run_responses, countPauses, List.countP_append] at h1 h2 ⊢
        omega
      · simpa only [run_responses] using hrest.1
  · intro ht hres hs
    rcases hsome : r_get_id_for_sequence st.redis kw.sequence_number with _ | sent
    · exact absurd hsome hres
    · have h := step_unthrottle_of_throttled cfg st kw sent ht hsome hs
      exact ⟨h.2.1, h.1⟩
  · intro ht hs
    exact (step_unthrottled_stays cfg st kw ht hs).2.1

theorem c2_witness :
    countPauses (run_responses default_config st_unthrottled [kw_throttled]).2
      = 1 ∧
    countUnpauses (submit_sm_resp default_config st_throttled kw_ok).2 = 1 := by
  refine ⟨?_, ?_⟩
  · exact ((c2_throttling_edge_triggered default_config st_unthrottled
      [kw_throttled] kw_ok).1 rfl (by simp) (by decide) (by decide)).1
  · exact ((c2_throttling_edge_triggered default_config st_throttled []
      kw_ok).2.1 rfl (by decide) (by decide)).1

end Vumi.Smpp
